import Mathlib

/-!
Verification of the mortgage-calculation library of `money-master`
(`src/lib/functions/mortgage.ts`).

JavaScript numeric arithmetic is embedded into `ℚ` (exact real-number
semantics of the arithmetic expressions in the source; `a / 0 = 0` is the
Lean convention where JavaScript would produce `NaN`/`Infinity`, and each
such spot is flagged where it matters).  The loan term is a natural number
of years, as the source comments restrict it to 15 or 30.
-/

namespace MoneyMaster

/-- Embedding of `getMonthlyMortgage` (mortgage.ts, lines 25–54).
`monthlyRate` is `parseFloat(interestRate) / 100 / 12`,
`numberOfPayments` is `loanTermYears * 12`,
`x = (1 + monthlyRate) ^ numberOfPayments`, and the returned
`monthlyPayment` is `(principal * x * monthlyRate) / (x - 1)`. -/
def getMonthlyMortgage (principal interestRate : ℚ) (loanTermYears : ℕ) : ℚ :=
  let monthlyRate : ℚ := interestRate / 100 / 12
  let numberOfPayments : ℕ := loanTermYears * 12
  let x : ℚ := (1 + monthlyRate) ^ numberOfPayments
  principal * x * monthlyRate / (x - 1)

/-- Embedding of the maintenance line (mortgage.ts, lines 100–101):
`annualMaintenanceRate = principal * parseFloat("3.00")` and
`monthlyMaintenanceRate = annualMaintenanceRate / 12`.  Note the source
multiplies by `3`, with no division by `100`. -/
def monthlyMaintenanceRate (principal : ℚ) : ℚ :=
  let annualMaintenanceRate : ℚ := principal * 3
  annualMaintenanceRate / 12

/-- The record returned by `getTrueCostsOfHome` (mortgage.ts, lines 113–125). -/
structure CostBreakdown where
  mortgagePayment : ℚ
  totalInterest : ℚ
  totalPmi : ℚ
  totalInsurance : ℚ
  totalMonthlyPayment : ℚ
  totalCost : ℚ
  yearlyPropertyTax : ℚ
  monthlyPropertyTax : ℚ
  monthlyInsurance : ℚ
  monthlyPmi : ℚ
  totalPropertyTax : ℚ
  deriving Repr, DecidableEq

/-- Embedding of `getTrueCostsOfHome` (mortgage.ts, lines 56–127), following
the source line by line.  `parseFloat` of the rate strings is embedded as the
rational arguments themselves; `Number(loanTermYears)` is the identity. -/
def getTrueCostsOfHome (principal interestRate : ℚ) (loanTermYears : ℕ)
    (pmiRate insuranceRate propertyTaxRate : ℚ) : CostBreakdown :=
  let monthlyPmi : ℚ := (principal * pmiRate / 100) / 12
  let annualInsurance : ℚ := principal * (insuranceRate / 100)
  let monthlyInsurance : ℚ := annualInsurance / 12
  let numberOfPayments : ℕ := loanTermYears * 12
  let monthlyPayment : ℚ := getMonthlyMortgage principal interestRate loanTermYears
  let totalPrincipalAndInterest : ℚ := monthlyPayment * numberOfPayments
  let totalPmi : ℚ := monthlyPmi * numberOfPayments
  let totalInsurance : ℚ := monthlyInsurance * numberOfPayments
  let totalInterest : ℚ := totalPrincipalAndInterest - principal
  let yearlyPropertyTax : ℚ := principal * propertyTaxRate / 100
  let monthlyPropertyTax : ℚ := yearlyPropertyTax / 12
  let totalPropertyTax : ℚ := yearlyPropertyTax * loanTermYears
  let totalMonthlyPayment : ℚ :=
    monthlyPayment + monthlyPmi + monthlyInsurance + monthlyPropertyTax +
      monthlyMaintenanceRate principal
  let totalCost : ℚ :=
    totalPrincipalAndInterest + totalPmi + totalInsurance + totalPropertyTax
  { mortgagePayment := monthlyPayment
    totalInterest := totalInterest
    totalPmi := totalPmi
    totalInsurance := totalInsurance
    totalMonthlyPayment := totalMonthlyPayment
    totalCost := totalCost
    yearlyPropertyTax := yearlyPropertyTax
    monthlyPropertyTax := monthlyPropertyTax
    monthlyInsurance := monthlyInsurance
    monthlyPmi := monthlyPmi
    totalPropertyTax := totalPropertyTax }

/-- A row of the 2023 property-tax table (`rates.json`): a state name and its
`Effective Tax Rate (2023)` value. -/
structure TaxRow where
  State : String
  effectiveTaxRate2023 : ℚ
  deriving Repr, DecidableEq

/-- Embedding of `getPropertyTaxByState` (mortgage.ts, lines 129–136),
parameterised by the imported table: `find` the first row whose `State`
field equals the argument, return its rate, and throw
`"Could not find state? Huh??"` when there is none. -/
def getPropertyTaxByState (table : List TaxRow) (state : String) : Except String ℚ :=
  match table.find? (fun x => x.State == state) with
  | some row => Except.ok row.effectiveTaxRate2023
  | none => Except.error "Could not find state? Huh??"

/-- Modelled from the spec: the static table `rates.json` (2023) imported by
`mortgage.ts` is not under `src/`; per the spec it is exhaustive for all
valid U.S. state names, each row carrying that state's stored effective tax
rate.  The numeric rates are not recorded in `src/` and are immaterial to
the claims, so each is modelled as an unspecified concrete placeholder. -/
def propertyTaxRates : List TaxRow :=
  ["Alabama", "Alaska", "Arizona", "Arkansas", "California", "Colorado",
   "Connecticut", "Delaware", "Florida", "Georgia", "Hawaii", "Idaho",
   "Illinois", "Indiana", "Iowa", "Kansas", "Kentucky", "Louisiana",
   "Maine", "Maryland", "Massachusetts", "Michigan", "Minnesota",
   "Mississippi", "Missouri", "Montana", "Nebraska", "Nevada",
   "New Hampshire", "New Jersey", "New Mexico", "New York",
   "North Carolina", "North Dakota", "Ohio", "Oklahoma", "Oregon",
   "Pennsylvania", "Rhode Island", "South Carolina", "South Dakota",
   "Tennessee", "Texas", "Utah", "Vermont", "Virginia", "Washington",
   "West Virginia", "Wisconsin", "Wyoming"].map (fun s => ⟨s, 1⟩)

/-- Unfolding lemma: `getMonthlyMortgage` is exactly the source expression
`principal * x * monthlyRate / (x - 1)` with `x = (1 + r/100/12)^(T*12)`. -/
lemma getMonthlyMortgage_eq (P r : ℚ) (T : ℕ) :
    getMonthlyMortgage P r T =
      P * (1 + r / 100 / 12) ^ (T * 12) * (r / 100 / 12) /
        ((1 + r / 100 / 12) ^ (T * 12) - 1) := rfl

/-- Unfolding lemma for the monthly total: the source sums the mortgage
payment, monthly PMI, monthly insurance, monthly property tax and the
monthly maintenance figure. -/
lemma totalMonthlyPayment_eq (P r : ℚ) (T : ℕ) (pm ins tx : ℚ) :
    (getTrueCostsOfHome P r T pm ins tx).totalMonthlyPayment =
      getMonthlyMortgage P r T + P * pm / 100 / 12 + P * (ins / 100) / 12 +
        P * tx / 100 / 12 + monthlyMaintenanceRate P := rfl

/-- C5: for every input, `totalMonthlyPayment` returned by
`getTrueCostsOfHome` is the sum of the five monthly components: the monthly
principal-and-interest payment, monthly PMI, monthly insurance, monthly
property tax, and the monthly maintenance figure. -/
theorem c5_totalMonthlyPayment_is_sum_of_five (P r : ℚ) (T : ℕ) (pm ins tx : ℚ) :
    (getTrueCostsOfHome P r T pm ins tx).totalMonthlyPayment =
      (getTrueCostsOfHome P r T pm ins tx).mortgagePayment +
      (getTrueCostsOfHome P r T pm ins tx).monthlyPmi +
      (getTrueCostsOfHome P r T pm ins tx).monthlyInsurance +
      (getTrueCostsOfHome P r T pm ins tx).monthlyPropertyTax +
      monthlyMaintenanceRate P := rfl

/-- C4: for every input, `totalCost` is the sum of total principal and
interest (monthly payment times the `T * 12` payments), total PMI, total
insurance and total property tax; the maintenance component is absent from
`totalCost` although (second conjunct) it is one of the five summands of
`totalMonthlyPayment`. -/
theorem c4_totalCost_sum_excludes_maintenance (P r : ℚ) (T : ℕ) (pm ins tx : ℚ) :
    (getTrueCostsOfHome P r T pm ins tx).totalCost =
      (getTrueCostsOfHome P r T pm ins tx).mortgagePayment * ((T : ℚ) * 12) +
      (getTrueCostsOfHome P r T pm ins tx).totalPmi +
      (getTrueCostsOfHome P r T pm ins tx).totalInsurance +
      (getTrueCostsOfHome P r T pm ins tx).totalPropertyTax ∧
    (getTrueCostsOfHome P r T pm ins tx).totalMonthlyPayment =
      (getTrueCostsOfHome P r T pm ins tx).mortgagePayment +
      (getTrueCostsOfHome P r T pm ins tx).monthlyPmi +
      (getTrueCostsOfHome P r T pm ins tx).monthlyInsurance +
      (getTrueCostsOfHome P r T pm ins tx).monthlyPropertyTax +
      monthlyMaintenanceRate P := by
  constructor
  · simp only [getTrueCostsOfHome]
    push_cast
    ring
  · rfl

/-- C8: for every input, the `totalInterest` field is the total principal
and interest (monthly payment times the `T * 12` payments) minus the
original principal. -/
theorem c8_totalInterest_eq (P r : ℚ) (T : ℕ) (pm ins tx : ℚ) :
    (getTrueCostsOfHome P r T pm ins tx).totalInterest =
      (getTrueCostsOfHome P r T pm ins tx).mortgagePayment * ((T : ℚ) * 12) - P := by
  simp only [getTrueCostsOfHome]
  push_cast
  ring

/-- C7: for every input, `getTrueCostsOfHome` computes
`monthlyPmi = P * pmiRate / 100 / 12`,
`monthlyInsurance = P * insuranceRate / 100 / 12`,
`yearlyPropertyTax = P * propertyTaxRate / 100`,
`monthlyPropertyTax = yearlyPropertyTax / 12` and
`totalPropertyTax = yearlyPropertyTax * termYears`; concretely, for
principal 300000 with pmiRate 0.5, insuranceRate 0.35 and propertyTaxRate
0.35 the monthly values are 125, 87.5 and 87.5. -/
theorem c7_rate_components :
    (∀ (P r : ℚ) (T : ℕ) (pm ins tx : ℚ),
      (getTrueCostsOfHome P r T pm ins tx).monthlyPmi = P * pm / 100 / 12 ∧
      (getTrueCostsOfHome P r T pm ins tx).monthlyInsurance = P * ins / 100 / 12 ∧
      (getTrueCostsOfHome P r T pm ins tx).yearlyPropertyTax = P * tx / 100 ∧
      (getTrueCostsOfHome P r T pm ins tx).monthlyPropertyTax =
        (getTrueCostsOfHome P r T pm ins tx).yearlyPropertyTax / 12 ∧
      (getTrueCostsOfHome P r T pm ins tx).totalPropertyTax =
        (getTrueCostsOfHome P r T pm ins tx).yearlyPropertyTax * (T : ℚ)) ∧
    (getTrueCostsOfHome 300000 (9/2) 30 (1/2) (7/20) (7/20)).monthlyPmi = 125 ∧
    (getTrueCostsOfHome 300000 (9/2) 30 (1/2) (7/20) (7/20)).monthlyInsurance = 175/2 ∧
    (getTrueCostsOfHome 300000 (9/2) 30 (1/2) (7/20) (7/20)).monthlyPropertyTax = 175/2 := by
  refine ⟨fun P r T pm ins tx => ⟨rfl, by simp only [getTrueCostsOfHome]; ring, rfl, rfl, rfl⟩,
    by norm_num [getTrueCostsOfHome], by norm_num [getTrueCostsOfHome], by norm_num [getTrueCostsOfHome]⟩

/-- C10: the PMI, insurance and property-tax fields of `getTrueCostsOfHome`
do not depend on the interest rate: two calls whose inputs differ only in
`interestRate` agree on `monthlyPmi`, `totalPmi`, `monthlyInsurance`,
`totalInsurance`, `yearlyPropertyTax`, `monthlyPropertyTax` and
`totalPropertyTax`. -/
theorem c10_rate_fields_independent_of_interest (P : ℚ) (T : ℕ) (pm ins tx r₁ r₂ : ℚ) :
    (getTrueCostsOfHome P r₁ T pm ins tx).monthlyPmi =
      (getTrueCostsOfHome P r₂ T pm ins tx).monthlyPmi ∧
    (getTrueCostsOfHome P r₁ T pm ins tx).totalPmi =
      (getTrueCostsOfHome P r₂ T pm ins tx).totalPmi ∧
    (getTrueCostsOfHome P r₁ T pm ins tx).monthlyInsurance =
      (getTrueCostsOfHome P r₂ T pm ins tx).monthlyInsurance ∧
    (getTrueCostsOfHome P r₁ T pm ins tx).totalInsurance =
      (getTrueCostsOfHome P r₂ T pm ins tx).totalInsurance ∧
    (getTrueCostsOfHome P r₁ T pm ins tx).yearlyPropertyTax =
      (getTrueCostsOfHome P r₂ T pm ins tx).yearlyPropertyTax ∧
    (getTrueCostsOfHome P r₁ T pm ins tx).monthlyPropertyTax =
      (getTrueCostsOfHome P r₂ T pm ins tx).monthlyPropertyTax ∧
    (getTrueCostsOfHome P r₁ T pm ins tx).totalPropertyTax =
      (getTrueCostsOfHome P r₂ T pm ins tx).totalPropertyTax :=
  ⟨rfl, rfl, rfl, rfl, rfl, rfl, rfl⟩

/-- C1 (evaluation at the failing input): the source computes
`annualMaintenanceRate = principal * parseFloat("3.00")` without dividing
by 100, so at principal 300000 the monthly maintenance figure added into
`totalMonthlyPayment` is 75000, and 75000 is not `300000 * 3 / 100 / 12`
(which is 750), contradicting the 3%-per-year reading. -/
theorem c1_maintenance_not_three_percent :
    monthlyMaintenanceRate 300000 = 75000 ∧
    (getTrueCostsOfHome 300000 (9/2) 30 (1/2) (7/20) (7/20)).totalMonthlyPayment =
      (getTrueCostsOfHome 300000 (9/2) 30 (1/2) (7/20) (7/20)).mortgagePayment +
      (getTrueCostsOfHome 300000 (9/2) 30 (1/2) (7/20) (7/20)).monthlyPmi +
      (getTrueCostsOfHome 300000 (9/2) 30 (1/2) (7/20) (7/20)).monthlyInsurance +
      (getTrueCostsOfHome 300000 (9/2) 30 (1/2) (7/20) (7/20)).monthlyPropertyTax +
      75000 ∧
    (75000 : ℚ) ≠ 300000 * 3 / 100 / 12 := by
  refine ⟨by norm_num [monthlyMaintenanceRate], ?_, by norm_num⟩
  rw [totalMonthlyPayment_eq]
  simp only [getTrueCostsOfHome]
  norm_num [monthlyMaintenanceRate]

/-- C2 (evaluation at the failing input): with annual interest rate 0 the
source computes `x = (1 + 0)^(T*12) = 1` and returns
`(P * x * 0) / (x - 1) = 0 / 0` (`NaN` in JavaScript, `0` in this exact
embedding where division by zero is zero); for principal 1200 over 1 year
the claimed value `P / (T * 12)` is 100, which the function does not
return. -/
theorem c2_zero_rate_division_by_zero :
    getMonthlyMortgage 1200 0 1 = 0 ∧
    (1200 : ℚ) / ((1 : ℚ) * 12) = 100 ∧
    (0 : ℚ) ≠ 100 := by
  refine ⟨?_, by norm_num, by norm_num⟩
  rw [getMonthlyMortgage_eq]
  norm_num

/-- C3: for positive principal, positive annual rate and positive term,
`getMonthlyMortgage` returns exactly the standard fixed-rate annuity value
`P * i * (1+i)^n / ((1+i)^n - 1)` with `i = r / 100 / 12` and
`n = T * 12`. -/
theorem c3_annuity_formula (P r : ℚ) (T : ℕ) (hP : 0 < P) (hr : 0 < r) (hT : 0 < T) :
    getMonthlyMortgage P r T =
      P * (r / 100 / 12) * (1 + r / 100 / 12) ^ (T * 12) /
        ((1 + r / 100 / 12) ^ (T * 12) - 1) := by
  rw [getMonthlyMortgage_eq]
  ring

/-- Witness for C3 at the spec scenario: principal 300000, rate 4.5,
term 30 years. -/
theorem c3_annuity_formula_witness :
    (0 : ℚ) < 300000 ∧ (0 : ℚ) < 9/2 ∧ 0 < 30 ∧
    getMonthlyMortgage 300000 (9/2) 30 =
      300000 * ((9/2) / 100 / 12) * (1 + (9/2) / 100 / 12) ^ (30 * 12) /
        ((1 + (9/2) / 100 / 12) ^ (30 * 12) - 1) :=
  ⟨by norm_num, by norm_num, by norm_num,
    c3_annuity_formula 300000 (9/2) 30 (by norm_num) (by norm_num) (by norm_num)⟩

/-- Key inequality for C6: for a positive monthly rate `i` and at least one
payment, `(1+i)^n - 1 < n * i * (1+i)^n`, so the total of the annuity
payments strictly exceeds the principal. -/
lemma pow_sub_one_lt_mul (i : ℚ) (hi : 0 < i) :
    ∀ n : ℕ, 1 ≤ n → (1 + i) ^ n - 1 < (n : ℚ) * i * (1 + i) ^ n := by
  intro n hn
  induction n, hn using Nat.le_induction with
  | base =>
    push_cast
    nlinarith [mul_pos hi hi]
  | succ n hn ih =>
    have hx1 : (1 : ℚ) ≤ (1 + i) ^ n := one_le_pow₀ (by linarith)
    have hipos : (0 : ℚ) < 1 + i := by linarith
    have hxn : (0 : ℚ) < (1 + i) ^ n := by positivity
    have hcast : (0 : ℚ) ≤ (n : ℚ) := Nat.cast_nonneg n
    push_cast
    rw [pow_succ]
    nlinarith [mul_lt_mul_of_pos_right ih hipos,
      mul_le_mul_of_nonneg_left hx1 (le_of_lt hi)]

/-- C6: for positive principal, positive annual rate and positive term,
`getMonthlyMortgage` is positive (and, being a rational, finite), and the
monthly payment times the `term * 12` payments strictly exceeds the
principal: the interest paid is positive. -/
theorem c6_payment_positive_and_exceeds_principal (P r : ℚ) (T : ℕ)
    (hP : 0 < P) (hr : 0 < r) (hT : 0 < T) :
    0 < getMonthlyMortgage P r T ∧
      P < getMonthlyMortgage P r T * (T : ℚ) * 12 := by
  have hi : (0 : ℚ) < r / 100 / 12 := by positivity
  have hn : 1 ≤ T * 12 := by omega
  have hx1 : (1 : ℚ) < (1 + r / 100 / 12) ^ (T * 12) :=
    one_lt_pow₀ (by linarith) (by omega)
  have hden : (0 : ℚ) < (1 + r / 100 / 12) ^ (T * 12) - 1 := by linarith
  have hxpos : (0 : ℚ) < (1 + r / 100 / 12) ^ (T * 12) := by linarith
  rw [getMonthlyMortgage_eq]
  constructor
  · exact div_pos (by positivity) hden
  · rw [div_mul_eq_mul_div, div_mul_eq_mul_div, lt_div_iff₀ hden]
    have hkey := pow_sub_one_lt_mul (r / 100 / 12) hi (T * 12) hn
    have h2 := mul_lt_mul_of_pos_left hkey hP
    push_cast at h2 ⊢
    nlinarith [h2]

/-- Witness for C6 at principal 1000, rate 12, term 1 year. -/
theorem c6_payment_positive_witness :
    (0 : ℚ) < 1000 ∧ (0 : ℚ) < 12 ∧ 0 < 1 ∧
    (0 < getMonthlyMortgage 1000 12 1 ∧
      (1000 : ℚ) < getMonthlyMortgage 1000 12 1 * ((1 : ℕ) : ℚ) * 12) :=
  ⟨by norm_num, by norm_num, by norm_num,
    c6_payment_positive_and_exceeds_principal 1000 12 1
      (by norm_num) (by norm_num) (by norm_num)⟩

/-- C9: `getPropertyTaxByState` throws the not-found error exactly when the
table has no row whose `State` equals the argument; when `find` locates a
row it returns that row's stored effective tax rate (and that row is a
table entry whose state name equals the argument); concretely, on the
modelled table the lookup for "Alabama" succeeds with Alabama's stored rate
and the lookup for "Atlantis" throws. -/
theorem c9_lookup_error_iff_absent :
    (∀ (table : List TaxRow) (state : String),
      getPropertyTaxByState table state = Except.error "Could not find state? Huh??" ↔
        ∀ row ∈ table, row.State ≠ state) ∧
    (∀ (table : List TaxRow) (state : String) (row : TaxRow),
      table.find? (fun x => x.State == state) = some row →
        getPropertyTaxByState table state = Except.ok row.effectiveTaxRate2023 ∧
          row ∈ table ∧ row.State = state) ∧
    (∃ row ∈ propertyTaxRates, row.State = "Alabama" ∧
      getPropertyTaxByState propertyTaxRates "Alabama" = Except.ok row.effectiveTaxRate2023) ∧
    getPropertyTaxByState propertyTaxRates "Atlantis" =
      Except.error "Could not find state? Huh??" := by
  refine ⟨?_, ?_, ?_, rfl⟩
  · intro table state
    unfold getPropertyTaxByState
    cases h : table.find? (fun x => x.State == state) with
    | none =>
      simp only [List.find?_eq_none, beq_iff_eq] at h
      simpa using h
    | some row =>
      have hmem := List.mem_of_find?_eq_some h
      have hstate : row.State = state := by
        have := List.find?_some h
        simpa [beq_iff_eq] using this
      simp only []
      constructor
      · intro hcontr
        exact absurd hcontr (by simp)
      · intro hall
        exact absurd hstate (hall row hmem)
  · intro table state row h
    refine ⟨by simp [getPropertyTaxByState, h], List.mem_of_find?_eq_some h, ?_⟩
    have := List.find?_some h
    simpa [beq_iff_eq] using this
  · exact ⟨⟨"Alabama", 1⟩, by decide, rfl, rfl⟩

/-- Witness for C9: on the modelled table, `find` locates the Alabama row,
and applying the theorem there yields the successful lookup. -/
theorem c9_lookup_error_iff_absent_witness :
    propertyTaxRates.find? (fun x => x.State == "Alabama") = some ⟨"Alabama", 1⟩ ∧
    (getPropertyTaxByState propertyTaxRates "Alabama" =
        Except.ok (TaxRow.mk "Alabama" 1).effectiveTaxRate2023 ∧
      TaxRow.mk "Alabama" 1 ∈ propertyTaxRates ∧
      (TaxRow.mk "Alabama" 1).State = "Alabama") :=
  ⟨by decide,
    c9_lookup_error_iff_absent.2.1 propertyTaxRates "Alabama" ⟨"Alabama", 1⟩ (by decide)⟩

end MoneyMaster
